import Mathlib

/-!
Verification of the genaipy map-reduce summarization notebook
(`demos/content_creation_workflow.ipynb`, Map-Reduce demo).

The embedding below follows the notebook cells:

* Map-Step cell:
  ```
  map_summaries = []
  for page in tqdm(pages, desc="Generating Map Summaries"):
      try:
          map_prompt = build_prompt(template=SUMMARY_PROMPT_TPL,
                                    text=pages[page]["content"],
                                    max_words=MAP_MAX_WORDS)
          summary = get_chat_response(map_prompt, sys_message=SYS_MESSAGE, model=MAP_LLM)
          map_summaries.append(summary)
          logging.info("Map Summary #%d: %s", page, summary)
      except Exception as e:
          logging.error("An error occured while generating summary #%d: %s", page, summary)
  ```
* Reduce preparation cell:
  ```
  string = "\n".join(map_summaries)
  text = string.replace("\n\n", "")
  ```
* Reduce cell:
  ```
  try:
      reduce_prompt = build_prompt(template=REDUCE_SUMMARY_PROMPT_TPL, text=text,
                                   max_words=REDUCE_MAX_WORDS)
      final_summary = get_chat_response(prompt=reduce_prompt, sys_message=SYS_MESSAGE,
                                        model=REDUCE_LLM, max_tokens=1024)
      logging.info("Final Reduce Summary:\n%s", final_summary)
  except Exception as e:
      logging.error("An error occured while generating final summary: %s", e)
  else:
      output = {"final_summary": final_summary, "map_summaries": map_summaries}
  ```

The Completion Provider (`get_chat_response` composed with the prompt template
binding done by the genaipy library, which is outside the notebook sources) is
modelled as an injected function returning `Except String String`: `.ok s` is a
generated summary, `.error e` any provider/template exception.  Python dicts are
modelled as association lists in literal insertion order.
-/

/-- An ordered, identified unit of source text (one PDF page in the notebook:
`pages` maps a page number to its text content, iterated in key order). -/
structure Chunk where
  id : Nat
  text : String
deriving DecidableEq, Repr

/-- A value of the notebook output dict: the values of the
`{"final_summary": ..., "map_summaries": ...}` literal are a string and a list
of strings. -/
inductive PyVal where
  | str : String → PyVal
  | strList : List String → PyVal
deriving DecidableEq, Repr

/-- Result of running one notebook cell: the cell either finishes normally with
a value, or an uncaught Python exception propagates out of it. -/
inductive CellResult (α : Type) where
  | normal : α → CellResult α
  | raised : String → CellResult α
deriving DecidableEq, Repr

/-- Embedding of `string.replace("\n\n", "")` on the character list: a left-to-right
pass deleting each non-overlapping occurrence of the two-character sequence
`"\n\n"` (Python `str.replace` with the empty replacement; scanning resumes
after the match, so the already-kept prefix is never re-examined). -/
def collapseChars : List Char → List Char
  | [] => []
  | [c] => [c]
  | c :: d :: rest =>
    if c = '\n' then
      if d = '\n' then collapseChars rest
      else c :: collapseChars (d :: rest)
    else c :: collapseChars (d :: rest)

/-- Whether the character list contains the two-character sequence `"\n\n"`. -/
def hasNlNl : List Char → Bool
  | [] => false
  | [_] => false
  | c :: d :: rest => (c = '\n' && d = '\n') || hasNlNl (d :: rest)

/-- Embedding of `s.replace("\n\n", "")` lifted to `String`. -/
def strCollapse (s : String) : String :=
  String.mk (collapseChars s.data)

/-- The reduce preparation cell: `"\n".join(map_summaries)` followed by
`.replace("\n\n", "")`; the resulting `text` is what the reduce prompt embeds
and the provider receives. -/
def reduceInput (map_summaries : List String) : String :=
  strCollapse (String.intercalate "\n" map_summaries)

/-- The notebook output dict literal
`{"final_summary": final_summary, "map_summaries": map_summaries}`,
modelled as an association list in insertion order. -/
def buildOutput (final_summary : String) (map_summaries : List String) :
    List (String × PyVal) :=
  [("final_summary", PyVal.str final_summary),
   ("map_summaries", PyVal.strList map_summaries)]

/-- The reduce cell as a function of the injected provider and the
`map_summaries` list: on provider success the `else` branch builds `output`;
on provider failure the `except` branch logs
`"An error occured while generating final summary: %s" % e` and no output is
assigned.  The pair is (the `output` variable if assigned, error-log lines). -/
def reduceCell (reducer : String → Except String String)
    (map_summaries : List String) :
    Option (List (String × PyVal)) × List String :=
  match reducer (reduceInput map_summaries) with
  | .ok final_summary => (some (buildOutput final_summary map_summaries), [])
  | .error e =>
    (none, ["An error occured while generating final summary: " ++ e])

/-- The notebook-level variables the reduce cells read or assign:
`map_summaries` (from the Map-Step cell), `text` (reduce preparation),
`final_summary` and `output` (reduce cell; `Option` is `none` while the Python
name is still unassigned). -/
structure NotebookState where
  map_summaries : List String
  text : Option String
  final_summary : Option String
  output : Option (List (String × PyVal))
deriving DecidableEq, Repr

/-- The reduce preparation cell plus the reduce cell as a state transformer on
the notebook variables: `text` is always (re)assigned; on provider success
`final_summary` and `output` are assigned; on provider failure the exception is
caught, only logged, and `final_summary`/`output` keep their previous values. -/
def reduceCellS (reducer : String → Except String String)
    (st : NotebookState) : NotebookState × List String :=
  let t := reduceInput st.map_summaries
  match reducer t with
  | .ok fs =>
    ({ st with
        text := some t
        final_summary := some fs
        output := some (buildOutput fs st.map_summaries) }, [])
  | .error e =>
    ({ st with text := some t },
     ["An error occured while generating final summary: " ++ e])

/-- The Map-Step loop body, iterated over the remaining chunks.
`call c.text w` is `get_chat_response(build_prompt(SUMMARY_PROMPT_TPL,
text=..., max_words=w), ...)`: any exception from either call is caught by the
`except` of the loop.  `prev` is the current value of the Python variable `summary`
(`none` while unassigned), `acc` the reversed `map_summaries` list, `log` the
reversed list of `logging.error` argument pairs `(page, summary)`.  The
`except` handler formats the old `summary`, not the caught exception `e`; when
`summary` is still unassigned the handler itself raises `NameError`, which no
handler catches, so the cell aborts. -/
def mapCellGo (call : String → Nat → Except String String) (w : Nat) :
    List Chunk → Option String → List String → List (Nat × String) →
    CellResult (List String × List (Nat × String))
  | [], _, acc, log => .normal (acc.reverse, log.reverse)
  | c :: cs, prev, acc, log =>
    match call c.text w with
    | .ok summary => mapCellGo call w cs (some summary) (summary :: acc) log
    | .error _ =>
      match prev with
      | none => .raised "NameError: name summary is not defined"
      | some ps => mapCellGo call w cs (some ps) acc ((c.id, ps) :: log)

/-- The Map-Step cell: starts with `map_summaries = []` and an unassigned
`summary`, returning the collected summaries and the error-log pairs. -/
def mapCell (call : String → Nat → Except String String) (w : Nat)
    (pages : List Chunk) : CellResult (List String × List (Nat × String)) :=
  mapCellGo call w pages none [] []

/-- The whole run: Map-Step cell, then reduce preparation and reduce cell on
the resulting `map_summaries`.  A `NameError` escaping the Map-Step cell stops
the notebook before the reduce cells execute. -/
def runWorkflow (call : String → Nat → Except String String) (wMap : Nat)
    (reducer : String → Except String String) (pages : List Chunk) :
    CellResult (Option (List (String × PyVal)) × List (Nat × String) × List String) :=
  match mapCell call wMap pages with
  | .raised e => .raised e
  | .normal (map_summaries, mapLog) =>
    match reduceCell reducer map_summaries with
    | (out, reduceLog) => .normal (out, mapLog, reduceLog)

/-- First-match lookup in an association list (Python keyword-argument mapping:
keys are unique, so first match is the match). -/
def lookupB (k : String) : List (String × String) → Option String
  | [] => none
  | p :: rest => if p.1 = k then some p.2 else lookupB k rest

/-- Modelled from the spec: the genaipy library function
`build_prompt(template, **bindings)` (module `genaipy.prompts.build_prompt`,
not among the notebook sources).  Spec section 4.3: substitute each
`\x7bname\x7d` placeholder with its binding, fail with a `TemplateError` when a
referenced placeholder has no binding, silently ignore binding keys the
template never references.  `hole` is `some buf` (reversed characters of the
placeholder name read so far) while inside a placeholder. -/
def bindGo (bindings : List (String × String)) :
    List Char → Option (List Char) → Except String (List Char)
  | [], none => .ok []
  | [], some _ => .error "TemplateError: unclosed placeholder"
  | c :: rest, none =>
    if c = '\x7b' then bindGo bindings rest (some [])
    else Except.map (fun out => c :: out) (bindGo bindings rest none)
  | c :: rest, some buf =>
    if c = '\x7d' then
      match lookupB (String.mk buf.reverse) bindings with
      | none =>
        .error ("TemplateError: missing binding for " ++ String.mk buf.reverse)
      | some v => Except.map (fun out => v.data ++ out) (bindGo bindings rest none)
    else bindGo bindings rest (some (c :: buf))

/-- Modelled from the spec: `bind(template, bindings)` of section 4.3 /
`build_prompt` of the genaipy library. -/
def build_prompt (template : String) (bindings : List (String × String)) :
    Except String String :=
  Except.map String.mk (bindGo bindings template.data none)

/-- The placeholder names a template references, in order of appearance. -/
def refsGo : List Char → Option (List Char) → List String
  | [], _ => []
  | c :: rest, none =>
    if c = '\x7b' then refsGo rest (some []) else refsGo rest none
  | c :: rest, some buf =>
    if c = '\x7d' then String.mk buf.reverse :: refsGo rest none
    else refsGo rest (some (c :: buf))

/-- The placeholder names referenced by a template string. -/
def tplRefs (template : String) : List String :=
  refsGo template.data none

/-- Whether an `Except` computation succeeded. -/
def exceptOk {ε α : Type} : Except ε α → Bool
  | .ok _ => true
  | .error _ => false

/-- The three-page end-to-end scenario of spec section 8. -/
def scenarioPages : List Chunk :=
  [⟨1, "p1"⟩, ⟨2, "p2"⟩, ⟨3, "p3"⟩]

/-- Mock summarizer of the end-to-end scenario: `"p1"`/`"p2"`/`"p3"` map to
`"S1"`/`"S2"`/`"S3"`. -/
def scenarioMapper (t : String) (_w : Nat) : Except String String :=
  if t = "p1" then .ok "S1"
  else if t = "p2" then .ok "S2"
  else if t = "p3" then .ok "S3"
  else .error "unexpected input"

/-- Mock reducer of the end-to-end scenario: returns `"FINAL"` on the joined
input `"S1\nS2\nS3"`. -/
def scenarioReducer (t : String) : Except String String :=
  if t = "S1\nS2\nS3" then .ok "FINAL" else .error "unexpected input"

/-! ### Helper lemmas -/

theorem string_mk_data (s : String) : String.mk s.data = s := by
  cases s
  rfl

theorem collapseChars_of_not_hasNlNl :
    ∀ l : List Char, hasNlNl l = false → collapseChars l = l
  | [], _ => rfl
  | [c], _ => rfl
  | c :: d :: rest, h => by
    simp only [hasNlNl, Bool.or_eq_false_iff, Bool.and_eq_false_iff,
      decide_eq_false_iff_not] at h
    obtain ⟨h1, h2⟩ := h
    by_cases hc : c = '\n'
    · have hd : ¬ d = '\n' := by
        cases h1 with
        | inl h1 => exact absurd hc h1
        | inr h1 => exact h1
      simp [collapseChars, hc, hd, collapseChars_of_not_hasNlNl (d :: rest) h2]
    · simp [collapseChars, hc, collapseChars_of_not_hasNlNl (d :: rest) h2]

theorem reduceInput_of_not_hasNlNl (l : List String)
    (h : hasNlNl (String.intercalate "\n" l).data = false) :
    reduceInput l = String.intercalate "\n" l := by
  unfold reduceInput strCollapse
  rw [collapseChars_of_not_hasNlNl _ h, string_mk_data]

theorem mapGo_all_ok (call : String → Nat → Except String String) (w : Nat)
    (g : Chunk → String) :
    ∀ (cs : List Chunk) (prev : Option String) (acc : List String)
      (log : List (Nat × String)),
      (∀ c ∈ cs, call c.text w = .ok (g c)) →
      mapCellGo call w cs prev acc log
        = .normal (acc.reverse ++ cs.map g, log.reverse)
  | [], prev, acc, log, _ => by simp [mapCellGo]
  | c :: cs, prev, acc, log, h => by
    have hc : call c.text w = .ok (g c) := h c (List.mem_cons_self c cs)
    have ih := mapGo_all_ok call w g cs (some (g c)) (g c :: acc) log
      (fun c' hc' => h c' (List.mem_cons_of_mem c hc'))
    simp [mapCellGo, hc, ih]

theorem mapGo_front (call : String → Nat → Except String String) (w : Nat)
    (g : Chunk → String) :
    ∀ (front : List Chunk) (p : Chunk) (rest : List Chunk)
      (prev : Option String) (acc : List String) (log : List (Nat × String)),
      (∀ c ∈ front ++ [p], call c.text w = .ok (g c)) →
      mapCellGo call w (front ++ p :: rest) prev acc log
        = mapCellGo call w rest (some (g p))
            (((front ++ [p]).map g).reverse ++ acc) log
  | [], p, rest, prev, acc, log, h => by
    have hp : call p.text w = .ok (g p) := h p (by simp)
    simp [mapCellGo, hp]
  | c :: front, p, rest, prev, acc, log, h => by
    have hc : call c.text w = .ok (g c) := h c (by simp)
    have ih := mapGo_front call w g front p rest (some (g c)) (g c :: acc) log
      (fun c' hc' => h c' (by simp only [List.cons_append, List.mem_cons]; right; exact hc'))
    have hstep : mapCellGo call w ((c :: front) ++ p :: rest) prev acc log
        = mapCellGo call w (front ++ p :: rest) (some (g c)) (g c :: acc) log := by
      simp [mapCellGo, hc]
    rw [hstep, ih]
    have hacc : (List.map g (front ++ [p])).reverse ++ g c :: acc
        = (List.map g ((c :: front) ++ [p])).reverse ++ acc := by
      simp
    rw [hacc]

theorem map_first_fail (call : String → Nat → Except String String) (w : Nat)
    (c : Chunk) (cs : List Chunk) (e : String)
    (h : call c.text w = .error e) :
    mapCell call w (c :: cs) = .raised "NameError: name summary is not defined" := by
  simp [mapCell, mapCellGo, h]

theorem map_one_fail (call : String → Nat → Except String String) (w : Nat)
    (g : Chunk → String) (front : List Chunk) (p bad : Chunk)
    (post : List Chunk) (e : String)
    (hfront : ∀ c ∈ front ++ [p], call c.text w = .ok (g c))
    (hbad : call bad.text w = .error e)
    (hpost : ∀ c ∈ post, call c.text w = .ok (g c)) :
    mapCell call w (front ++ p :: bad :: post)
      = .normal (((front ++ [p]) ++ post).map g, [(bad.id, g p)]) := by
  unfold mapCell
  rw [mapGo_front call w g front p (bad :: post) none [] [] hfront]
  have hstep : mapCellGo call w (bad :: post) (some (g p))
      (((front ++ [p]).map g).reverse ++ []) []
      = mapCellGo call w post (some (g p))
          (((front ++ [p]).map g).reverse ++ []) [(bad.id, g p)] := by
    simp [mapCellGo, hbad]
  rw [hstep, mapGo_all_ok call w g post (some (g p)) _ _ hpost]
  simp

theorem lookupB_append_of_isSome (k : String) (extras : List (String × String)) :
    ∀ b : List (String × String), (lookupB k b).isSome →
      lookupB k (b ++ extras) = lookupB k b
  | [], h => by simp [lookupB] at h
  | p :: b, h => by
    by_cases hp : p.1 = k
    · simp [lookupB, hp]
    · simp only [lookupB, if_neg hp] at h
      simp only [List.cons_append, lookupB, if_neg hp]
      exact lookupB_append_of_isSome k extras b h

theorem bindGo_append_extras (extras : List (String × String))
    (b : List (String × String)) :
    ∀ (l : List Char) (hole : Option (List Char)) (out : List Char),
      bindGo b l hole = .ok out → bindGo (b ++ extras) l hole = .ok out
  | [], none, out, h => h
  | [], some buf, out, h => by simp [bindGo] at h
  | c :: rest, none, out, h => by
    by_cases hc : c = '\x7b'
    · simp only [bindGo, if_pos hc] at h ⊢
      exact bindGo_append_extras extras b rest (some []) out h
    · simp only [bindGo, if_neg hc] at h ⊢
      cases hrec : bindGo b rest none with
      | ok o =>
        rw [hrec] at h
        rw [bindGo_append_extras extras b rest none o hrec]
        exact h
      | error e => rw [hrec] at h; simp [Except.map] at h
  | c :: rest, some buf, out, h => by
    by_cases hc : c = '\x7d'
    · simp only [bindGo, if_pos hc] at h ⊢
      cases hlk : lookupB (String.mk buf.reverse) b with
      | none => rw [hlk] at h; simp at h
      | some v =>
        rw [hlk] at h
        rw [lookupB_append_of_isSome _ extras b (by rw [hlk]; rfl), hlk]
        cases hrec : bindGo b rest none with
        | ok o =>
          rw [hrec] at h
          rw [bindGo_append_extras extras b rest none o hrec]
          exact h
        | error e => rw [hrec] at h; simp [Except.map] at h
    · simp only [bindGo, if_neg hc] at h ⊢
      exact bindGo_append_extras extras b rest (some (c :: buf)) out h

theorem bindGo_missing_ref (b : List (String × String)) :
    ∀ (l : List Char) (hole : Option (List Char)) (n : String),
      n ∈ refsGo l hole → lookupB n b = none →
      exceptOk (bindGo b l hole) = false
  | [], hole, n, hn, _ => by simp [refsGo] at hn
  | c :: rest, none, n, hn, hlk => by
    by_cases hc : c = '\x7b'
    · simp only [refsGo, if_pos hc] at hn
      simp only [bindGo, if_pos hc]
      exact bindGo_missing_ref b rest (some []) n hn hlk
    · simp only [refsGo, if_neg hc] at hn
      simp only [bindGo, if_neg hc]
      have hrest := bindGo_missing_ref b rest none n hn hlk
      cases hrec : bindGo b rest none with
      | ok o => rw [hrec] at hrest; simp [exceptOk] at hrest
      | error e => simp [Except.map, exceptOk]
  | c :: rest, some buf, n, hn, hlk => by
    by_cases hc : c = '\x7d'
    · simp only [refsGo, if_pos hc] at hn
      simp only [bindGo, if_pos hc]
      rcases List.mem_cons.mp hn with heq | hmem
      · subst heq
        rw [hlk]
        simp [exceptOk]
      · cases hlk2 : lookupB (String.mk buf.reverse) b with
        | none => simp [exceptOk]
        | some v =>
          have hrest := bindGo_missing_ref b rest none n hmem hlk
          cases hrec : bindGo b rest none with
          | ok o => rw [hrec] at hrest; simp [exceptOk] at hrest
          | error e => simp [Except.map, exceptOk]
    · simp only [refsGo, if_neg hc] at hn
      simp only [bindGo, if_neg hc]
      exact bindGo_missing_ref b rest (some (c :: buf)) n hn hlk

/-! ### Claim theorems -/

/-- C1 counterexample: with three pages and the provider failing on the second
one only, the Map-Step cell returns 2 results, not `N = 3`, and records no
Failure outcome in `map_summaries` — the failed chunk is silently skipped, so
the claimed `len(MapResultSet) == len(chunks)` guarantee is false on the code. -/
theorem c1_map_result_count_counterexample :
    mapCell (fun t _ => if t = "p2" then .error "rate limit" else .ok ("sum:" ++ t))
        150 scenarioPages
      = .normal (["sum:p1", "sum:p3"], [(2, "sum:p1")])
    ∧ ["sum:p1", "sum:p3"].length ≠ scenarioPages.length := by
  constructor
  · decide
  · decide

/-- C1 (amended): the Map-Step cell returns one summary per successful chunk,
relative order preserved.  When every call succeeds it returns exactly `N`
summaries, the i-th coming from the i-th chunk.  A chunk whose call fails at a
non-first position contributes no result: `N-1` summaries are returned, the
other chunks unaffected, and an error-log entry is recorded against the failed
id of the failed chunk.  A failure on the very first chunk aborts the whole batch with a
`NameError` raised by the handler itself. -/
theorem c1_map_stage_amended :
    (∀ (call : String → Nat → Except String String) (w : Nat) (g : Chunk → String)
       (pages : List Chunk),
       (∀ c ∈ pages, call c.text w = .ok (g c)) →
       mapCell call w pages = .normal (pages.map g, []))
    ∧ (∀ (call : String → Nat → Except String String) (w : Nat) (g : Chunk → String)
         (front : List Chunk) (p bad : Chunk) (post : List Chunk) (e : String),
         (∀ c ∈ front ++ [p], call c.text w = .ok (g c)) →
         call bad.text w = .error e →
         (∀ c ∈ post, call c.text w = .ok (g c)) →
         mapCell call w (front ++ p :: bad :: post)
           = .normal (((front ++ [p]) ++ post).map g, [(bad.id, g p)])
         ∧ (((front ++ [p]) ++ post).map g).length + 1
             = (front ++ p :: bad :: post).length)
    ∧ (∀ (call : String → Nat → Except String String) (w : Nat) (c : Chunk)
         (cs : List Chunk) (e : String),
         call c.text w = .error e →
         mapCell call w (c :: cs)
           = .raised "NameError: name summary is not defined") := by
  refine ⟨?_, ?_, map_first_fail⟩
  · intro call w g pages h
    unfold mapCell
    rw [mapGo_all_ok call w g pages none [] [] h]
    simp
  · intro call w g front p bad post e h1 h2 h3
    refine ⟨map_one_fail call w g front p bad post e h1 h2 h3, ?_⟩
    simp [List.length_append]
    omega

/-- C1 witness: the amended theorem applied at concrete inputs — an
all-success run over the three scenario pages, and a run whose first call
fails. -/
theorem c1_map_stage_amended_witness :
    mapCell (fun t _ => Except.ok ("Z" ++ t)) 150 scenarioPages
      = .normal (["Zp1", "Zp2", "Zp3"], [])
    ∧ mapCell (fun _ _ => Except.error "timeout") 150 scenarioPages
      = .raised "NameError: name summary is not defined" := by
  constructor
  · exact (c1_map_stage_amended.1 (fun t _ => Except.ok ("Z" ++ t)) 150
      (fun c => "Z" ++ c.text) scenarioPages
      (by
        intro c hc
        simp only [scenarioPages, List.mem_cons, List.not_mem_nil, or_false] at hc
        rcases hc with rfl | rfl | rfl <;> rfl)).trans (by decide)
  · exact c1_map_stage_amended.2.2 (fun _ _ => Except.error "timeout") 150
      ⟨1, "p1"⟩ [⟨2, "p2"⟩, ⟨3, "p3"⟩] "timeout" rfl

/-- C2 counterexample: on an empty `map_summaries` the reduce cell does not
fail with `EmptyInputError` and does invoke the Completion Provider — with a
provider that echoes its input, the run completes and the output embeds the
response of the provider to the empty reduce input. -/
theorem c2_empty_input_counterexample :
    reduceCell (fun t => Except.ok ("CALLED:" ++ t)) []
      = (some [("final_summary", PyVal.str "CALLED:"),
               ("map_summaries", PyVal.strList [])], [])
    ∧ (reduceCell (fun t => Except.ok ("CALLED:" ++ t)) []).1 ≠ none := by
  constructor
  · decide
  · decide

/-- C2 (amended): when `map_summaries` has zero entries the reduce cell does
not special-case the situation: the reduce input is the empty string and the
Completion Provider is invoked with it, its answer becoming the
`final_summary` field of the output bundle. -/
theorem c2_empty_reduce_amended (reducer : String → Except String String)
    (fs : String) (h : reducer "" = .ok fs) :
    reduceInput [] = ""
    ∧ reduceCell reducer [] = (some (buildOutput fs []), []) := by
  have hempty : reduceInput [] = "" := by decide
  refine ⟨hempty, ?_⟩
  unfold reduceCell
  rw [hempty, h]

/-- C2 witness: the amended theorem applied to a concrete provider. -/
theorem c2_empty_reduce_amended_witness :
    reduceCell (fun _ => Except.ok "R") [] = (some (buildOutput "R" []), []) :=
  (c2_empty_reduce_amended (fun _ => Except.ok "R") "R" rfl).2

/-- C3 counterexample: for successes `["A", "B\n\nC"]` the reduce input the
provider receives is `"A\nBC"`, not the claimed `"A\nB\nC"` — the doubled
newline is deleted by `.replace("\n\n", "")`, not collapsed to a single
newline boundary. -/
theorem c3_join_counterexample :
    reduceInput ["A", "B\n\nC"] = "A\nBC"
    ∧ reduceInput ["A", "B\n\nC"] ≠ "A\nB\nC" := by
  constructor
  · decide
  · decide

/-- C3 (amended): the reduce input is the summaries in order joined by a
single newline, with each occurrence of a doubled newline deleted (replaced by
the empty string); when the joined text contains no doubled newline it is
passed through unchanged, and for `["A", "B\n\nC"]` it equals `"A\nBC"`. -/
theorem c3_join_amended :
    (∀ l : List String, hasNlNl (String.intercalate "\n" l).data = false →
       reduceInput l = String.intercalate "\n" l)
    ∧ reduceInput ["A", "B\n\nC"] = "A\nBC" :=
  ⟨reduceInput_of_not_hasNlNl, by decide⟩

/-- C3 witness: the amended theorem applied to `["X", "Y"]`, whose join has no
doubled newline. -/
theorem c3_join_amended_witness : reduceInput ["X", "Y"] = "X\nY" :=
  (c3_join_amended.1 ["X", "Y"] (by decide)).trans (by decide)

/-- C4: the newline clean-up is exactly the single left-to-right pass of
`str.replace("\n\n", "")`: each occurrence of the two-character sequence
`"\n\n"` is deleted and every other character is kept, so a triple newline
leaves a stray single newline, a quadruple newline vanishes entirely, and runs
of other whitespace are not normalized at all. -/
theorem c4_single_pass_replace :
    (∀ rest : List Char, collapseChars ('\n' :: '\n' :: rest) = collapseChars rest)
    ∧ (∀ (c d : Char) (rest : List Char), ¬(c = '\n' ∧ d = '\n') →
         collapseChars (c :: d :: rest) = c :: collapseChars (d :: rest))
    ∧ (∀ c : Char, collapseChars [c] = [c])
    ∧ collapseChars [] = []
    ∧ strCollapse "a \t  b" = "a \t  b"
    ∧ strCollapse "a\n\n\nb" = "a\nb"
    ∧ strCollapse "a\n\n\n\nb" = "ab" := by
  refine ⟨?_, ?_, fun c => rfl, rfl, by decide, by decide, by decide⟩
  · intro rest
    simp [collapseChars]
  · intro c d rest h
    by_cases hc : c = '\n'
    · have hd : ¬ d = '\n' := fun hd => h ⟨hc, hd⟩
      simp [collapseChars, hc, hd]
    · simp [collapseChars, hc]

/-- C4 witness: the pass-through equation of the theorem applied at a concrete
non-newline pair. -/
theorem c4_single_pass_replace_witness :
    collapseChars ['x', 'y'] = 'x' :: collapseChars ['y'] :=
  c4_single_pass_replace.2.1 'x' 'y' [] (by decide)

/-- C5 counterexample: the value assembled on a fully successful run is the
two-field dict `{"final_summary": ..., "map_summaries": ...}` — it has no
`failed_chunks` field at all, so the claimed three-field SummaryBundle is not
what the end-to-end scenario returns. -/
theorem c5_bundle_fields_counterexample :
    runWorkflow scenarioMapper 150 scenarioReducer scenarioPages
      = .normal (some [("final_summary", PyVal.str "FINAL"),
                       ("map_summaries", PyVal.strList ["S1", "S2", "S3"])], [], [])
    ∧ (buildOutput "FINAL" ["S1", "S2", "S3"]).map Prod.fst
        = ["final_summary", "map_summaries"]
    ∧ "failed_chunks" ∉ (buildOutput "FINAL" ["S1", "S2", "S3"]).map Prod.fst := by
  refine ⟨by decide, by decide, by decide⟩

/-- C5 (amended): on a fully successful run the caller receives the output
dict with exactly the two fields `final_summary` (the answer of the reducer) and
`map_summaries` (the provider outputs in chunk order); no `failed_chunks`
field exists.  For the three-chunk mock scenario the dict is
`{final_summary: "FINAL", map_summaries: ["S1", "S2", "S3"]}`. -/
theorem c5_output_bundle_amended (call : String → Nat → Except String String)
    (w : Nat) (reducer : String → Except String String) (pages : List Chunk)
    (g : Chunk → String) (fs : String)
    (hmap : ∀ c ∈ pages, call c.text w = .ok (g c))
    (hred : reducer (reduceInput (pages.map g)) = .ok fs) :
    runWorkflow call w reducer pages
      = .normal (some (buildOutput fs (pages.map g)), [], [])
    ∧ (buildOutput fs (pages.map g)).map Prod.fst
        = ["final_summary", "map_summaries"] := by
  have h1 : mapCell call w pages = .normal (pages.map g, []) := by
    unfold mapCell
    rw [mapGo_all_ok call w g pages none [] [] hmap]
    simp
  constructor
  · simp only [runWorkflow, reduceCell, h1, hred]
  · rfl

/-- C5 witness: the amended theorem applied to the end-to-end scenario mocks. -/
theorem c5_output_bundle_amended_witness :
    runWorkflow scenarioMapper 150 scenarioReducer scenarioPages
      = .normal (some (buildOutput "FINAL" ["S1", "S2", "S3"]), [], []) := by
  have h := (c5_output_bundle_amended scenarioMapper 150 scenarioReducer scenarioPages
    (fun c => if c.text = "p1" then "S1" else if c.text = "p2" then "S2" else "S3")
    "FINAL"
    (by
      intro c hc
      simp only [scenarioPages, List.mem_cons, List.not_mem_nil, or_false] at hc
      rcases hc with rfl | rfl | rfl <;> rfl)
    (by rfl)).1
  exact h.trans (by decide)

/-- C6 counterexample: when the consolidation call fails, the reduce cell
catches the provider exception and only logs it — the run terminates normally
with no bundle rather than propagating the failure to the caller. -/
theorem c6_reduce_failure_counterexample :
    runWorkflow scenarioMapper 150 (fun _ => Except.error "boom") scenarioPages
      = .normal (none, [],
          ["An error occured while generating final summary: boom"])
    ∧ runWorkflow scenarioMapper 150 (fun _ => Except.error "boom") scenarioPages
      ≠ .raised "boom" := by
  constructor
  · decide
  · decide

/-- C6 (amended): if the consolidation call fails, the exception is caught
inside the reduce cell and recorded as a log line; no SummaryBundle is
produced (`output` is not assigned and keeps its previous value), nothing
propagates to the caller, and `map_summaries` is left unchanged and available
for inspection or retry. -/
theorem c6_reduce_failure_amended (reducer : String → Except String String)
    (st : NotebookState) (e : String)
    (h : reducer (reduceInput st.map_summaries) = .error e) :
    reduceCell reducer st.map_summaries
      = (none, ["An error occured while generating final summary: " ++ e])
    ∧ (reduceCellS reducer st).1.map_summaries = st.map_summaries
    ∧ (reduceCellS reducer st).1.output = st.output
    ∧ (reduceCellS reducer st).1.final_summary = st.final_summary := by
  refine ⟨?_, ?_, ?_, ?_⟩ <;> simp [reduceCell, reduceCellS, h]

/-- C6 witness: the amended theorem applied to a concrete failing reducer and
notebook state. -/
theorem c6_reduce_failure_amended_witness :
    reduceCell (fun _ => Except.error "down") ["S"]
      = (none, ["An error occured while generating final summary: down"])
    ∧ (reduceCellS (fun _ => Except.error "down")
        ⟨["S"], none, none, none⟩).1.output = none := by
  have h := c6_reduce_failure_amended (fun _ => Except.error "down")
    ⟨["S"], none, none, none⟩ "down" rfl
  exact ⟨h.1, h.2.2.1⟩

/-- C7 (spec-modelled `build_prompt`): template binding fails with a
`TemplateError` whenever the template references a placeholder with no
binding, and silently ignores extra bindings the template never references;
in particular binding `"Hello \x7bname\x7d"` against the empty mapping fails
and binding it against `name = Ada` plus an extra key returns `"Hello Ada"`. -/
theorem c7_template_strictness :
    build_prompt "Hello {name}" []
      = .error "TemplateError: missing binding for name"
    ∧ build_prompt "Hello {name}" [("name", "Ada"), ("extra", "ignored")]
      = .ok "Hello Ada"
    ∧ (∀ (template : String) (bindings extras : List (String × String)) (s : String),
         build_prompt template bindings = .ok s →
         build_prompt template (bindings ++ extras) = .ok s)
    ∧ (∀ (template : String) (bindings : List (String × String)) (n : String),
         n ∈ tplRefs template → lookupB n bindings = none →
         exceptOk (build_prompt template bindings) = false) := by
  refine ⟨rfl, rfl, ?_, ?_⟩
  · intro template bindings extras s h
    unfold build_prompt at h ⊢
    cases hrec : bindGo bindings template.data none with
    | ok o =>
      rw [hrec] at h
      rw [bindGo_append_extras extras bindings template.data none o hrec]
      exact h
    | error e => rw [hrec] at h; simp [Except.map] at h
  · intro template bindings n hn hlk
    unfold tplRefs at hn
    unfold build_prompt
    have hmiss := bindGo_missing_ref bindings template.data none n hn hlk
    cases hrec : bindGo bindings template.data none with
    | ok o => rw [hrec] at hmiss; simp [exceptOk] at hmiss
    | error e => simp [Except.map, exceptOk]

/-- C7 witness: the general conjuncts of the theorem applied at concrete
templates and bindings. -/
theorem c7_template_strictness_witness :
    build_prompt "Sum {text} in {max_words} words"
        ([("text", "T"), ("max_words", "150")] ++ [("unused", "x")])
      = .ok "Sum T in 150 words"
    ∧ exceptOk (build_prompt "Bye {who}" [("other", "y")]) = false := by
  constructor
  · exact c7_template_strictness.2.2.1 "Sum {text} in {max_words} words"
      [("text", "T"), ("max_words", "150")] [("unused", "x")]
      "Sum T in 150 words" rfl
  · exact c7_template_strictness.2.2.2 "Bye {who}" [("other", "y")] "who"
      (by decide) (by decide)

/-- C8: replaying the reduce step is deterministic and self-contained —
running the reduce cells a second time on the state left by the first run
reproduces the identical state and log (in particular a bit-identical
output bundle), and the reduce cells never mutate `map_summaries`. -/
theorem c8_reduce_replay_idempotent (reducer : String → Except String String)
    (st : NotebookState) :
    reduceCellS reducer ((reduceCellS reducer st).1) = reduceCellS reducer st
    ∧ ((reduceCellS reducer st).1).map_summaries = st.map_summaries := by
  cases hr : reducer (reduceInput st.map_summaries) with
  | ok fs => constructor <;> simp [reduceCellS, hr]
  | error e => constructor <;> simp [reduceCellS, hr]

/-- C9: for every chunk whose provider call succeeds, the summary stored in
`map_summaries` is exactly the string the Completion Provider returned — the
Map-Step cell applies no truncation or `max_words`-based length enforcement. -/
theorem c9_no_truncation (call : String → Nat → Except String String) (w : Nat)
    (g : Chunk → String) (pages : List Chunk)
    (h : ∀ c ∈ pages, call c.text w = .ok (g c)) :
    mapCell call w pages = .normal (pages.map g, []) := by
  unfold mapCell
  rw [mapGo_all_ok call w g pages none [] [] h]
  simp

/-- C9 witness: the theorem applied to a provider whose answer is far longer
than the advisory word budget of 5 — the stored summary is that exact string. -/
theorem c9_no_truncation_witness :
    mapCell (fun _ _ => Except.ok
        "This summary is deliberately far longer than the advisory budget")
        5 [⟨1, "t"⟩]
      = .normal
          (["This summary is deliberately far longer than the advisory budget"],
           [])
    ∧ 5 < ("This summary is deliberately far longer than the advisory budget" :
            String).length := by
  constructor
  · exact c9_no_truncation
      (fun _ _ => Except.ok
        "This summary is deliberately far longer than the advisory budget")
      5
      (fun _ => "This summary is deliberately far longer than the advisory budget")
      [⟨1, "t"⟩] (fun c _ => rfl)
  · decide

/-- C10: the Map-Step except handler formats the variable `summary` instead of
the caught exception: a failure on the very first chunk makes the handler
itself raise `NameError` (`summary` unbound), aborting the whole batch, and a
failure on a later chunk records the summary text of the previous chunk — not
the cause of the failure — as the logged error detail. -/
theorem c10_except_handler_bug :
    (∀ (call : String → Nat → Except String String) (w : Nat) (c : Chunk)
       (cs : List Chunk) (e : String),
       call c.text w = .error e →
       mapCell call w (c :: cs)
         = .raised "NameError: name summary is not defined")
    ∧ (∀ (call : String → Nat → Except String String) (w : Nat)
         (g : Chunk → String) (front : List Chunk) (p bad : Chunk)
         (post : List Chunk) (e : String),
         (∀ c ∈ front ++ [p], call c.text w = .ok (g c)) →
         call bad.text w = .error e →
         (∀ c ∈ post, call c.text w = .ok (g c)) →
         mapCell call w (front ++ p :: bad :: post)
           = .normal (((front ++ [p]) ++ post).map g, [(bad.id, g p)])) :=
  ⟨map_first_fail, map_one_fail⟩

/-- C10 witness: both conjuncts at concrete inputs — a first-chunk failure
aborts with `NameError`, and a second-chunk failure logs the first-chunk
summary `"first summary"` as the error detail instead of the provider error
`"rate limited"`. -/
theorem c10_except_handler_bug_witness :
    mapCell (fun _ _ => Except.error "rate limited") 150 [⟨1, "a"⟩]
      = .raised "NameError: name summary is not defined"
    ∧ mapCell (fun t _ => if t = "b" then Except.error "rate limited"
                          else Except.ok "first summary") 150
          [⟨1, "a"⟩, ⟨2, "b"⟩]
      = .normal (["first summary"], [(2, "first summary")]) := by
  constructor
  · exact c10_except_handler_bug.1 (fun _ _ => Except.error "rate limited") 150
      ⟨1, "a"⟩ [] "rate limited" rfl
  · exact (c10_except_handler_bug.2
      (fun t _ => if t = "b" then Except.error "rate limited"
                  else Except.ok "first summary") 150
      (fun _ => "first summary") [] ⟨1, "a"⟩ ⟨2, "b"⟩ [] "rate limited"
      (by
        intro c hc
        simp only [List.nil_append, List.mem_singleton] at hc
        subst hc
        rfl)
      rfl
      (by intro c hc; simp at hc)).trans (by decide)
